import Mathlib

/-!
Verification of the authenticated API-request pipeline of the
n8n-nodes-homebridge repository, as implemented in
`src/reference/GenericFunctions.ts`.

The TypeScript functions are shallowly embedded as Lean functions.
JavaScript truthiness and `||` defaulting are modelled explicitly;
HTTP traffic is modelled by an oracle mapping request options and an
attempt index to an outcome, so that retry behaviour, dispatched
options and waiting delays become observable values.
-/

namespace Homebridge

/-- JavaScript truthiness of a string: the empty string is falsy. -/
def jsTruthyStr (s : String) : Bool := s ≠ ""

/-- JavaScript truthiness of a possibly-absent string field
(`undefined` is falsy, the empty string is falsy). -/
def jsTruthyOptStr : Option String → Bool
  | some s => s ≠ ""
  | none => false

/-- JavaScript truthiness of a possibly-absent numeric field
(`undefined` is falsy, `0` is falsy). -/
def jsTruthyOptNat : Option Nat → Bool
  | some n => n ≠ 0
  | none => false

/-- JavaScript `a || b` on possibly-absent numeric values. -/
def jsOrOptNat (a b : Option Nat) : Option Nat :=
  if jsTruthyOptNat a then a else b

/-- JavaScript `a || b` where `b` is a present string default. -/
def jsOrStr (a : Option String) (b : String) : String :=
  match a with
  | some s => if s = "" then b else s
  | none => b

/-- TypeScript `s.startsWith(p)`, modelled on the character list. -/
def tsStartsWith (s p : String) : Bool := p.data.isPrefixOf s.data

/-- TypeScript `s.endsWith(p)`, modelled on the character list. -/
def tsEndsWith (s p : String) : Bool := p.data.isSuffixOf s.data

/-- TypeScript `s.slice(0, -1)`: drop the last character. -/
def tsDropLastChar (s : String) : String := String.mk s.data.dropLast

/-! ## Credential Resolver (`getCredentials`, GenericFunctions.ts lines 42-88) -/

/-- Raw credential record as stored by the host
(fields may be empty strings, which JavaScript treats as missing). -/
structure RawCredentials where
  serverUrl : String
  username : String
  password : String
  otp : Option String
deriving DecidableEq, Repr

/-- Validated connection settings returned by `getCredentials`. -/
structure HomebridgeCredentials where
  serverUrl : String
  username : String
  password : String
  otp : Option String
deriving DecidableEq, Repr

/-- The trailing-slash normalization inside `getCredentials`:
`if (serverUrl.endsWith('/')) serverUrl = serverUrl.slice(0, -1)`. -/
def stripTrailingSlash (serverUrl : String) : String :=
  if tsEndsWith serverUrl "/" then tsDropLastChar serverUrl else serverUrl

/-- Model of `getCredentials` (GenericFunctions.ts lines 42-88): validates that the
credential object exists and that `serverUrl`, `username`, `password` are
truthy, then strips a trailing slash from the server URL. -/
def getCredentials (credentials : Option RawCredentials) : Except String HomebridgeCredentials :=
  match credentials with
  | none => .error "No Homebridge credentials found. Please configure credentials first."
  | some c =>
    if ¬ jsTruthyStr c.serverUrl then
      .error "Server URL is required in Homebridge credentials."
    else if ¬ jsTruthyStr c.username then
      .error "Username is required in Homebridge credentials."
    else if ¬ jsTruthyStr c.password then
      .error "Password is required in Homebridge credentials."
    else
      .ok { serverUrl := stripTrailingSlash c.serverUrl
            username := c.username
            password := c.password
            otp := c.otp }

/-! Basic facts about the trailing-slash normalization. -/

theorem tsEndsWith_append_slash (u : String) : tsEndsWith (u ++ "/") "/" = true := by
  simp only [tsEndsWith, String.data_append, List.isSuffixOf_iff_suffix]
  exact List.suffix_append u.data ['/']

theorem stripTrailingSlash_append_slash (u : String) :
    stripTrailingSlash (u ++ "/") = u := by
  simp only [stripTrailingSlash, tsEndsWith_append_slash, if_true, tsDropLastChar,
    String.data_append]
  show String.mk ((u.data ++ ['/']).dropLast) = u
  simp

theorem stripTrailingSlash_of_not_endsWith (u : String) (h : tsEndsWith u "/" = false) :
    stripTrailingSlash u = u := by
  simp [stripTrailingSlash, h]

theorem stripTrailingSlash_restores (u : String) (h : tsEndsWith u "/" = true) :
    stripTrailingSlash u ++ "/" = u := by
  simp only [tsEndsWith, List.isSuffixOf_iff_suffix] at h
  obtain ⟨t, ht⟩ := h
  have hu : u = String.mk t ++ "/" := by
    apply String.ext
    simp [String.data_append, ht]
  rw [hu, stripTrailingSlash_append_slash]

/-! ## HTTP model

Constants from GenericFunctions.ts lines 29-31. -/

def MAX_RETRIES : Nat := 3
def RETRY_DELAY : Nat := 1000
def RETRY_STATUS_CODES : List Nat := [429, 500, 502, 503, 504]

/-- A failure thrown by the HTTP transport. `statusCode` models
`error.statusCode`, `responseStatusCode` models `error.response?.statusCode`,
`message` models `error.message` and `bodyMessage` models
`(error.response?.body || error.error || \x7b\x7d).message`; `none` stands
for an absent (`undefined`) field. -/
structure HttpError where
  statusCode : Option Nat
  responseStatusCode : Option Nat
  message : Option String
  bodyMessage : Option String
deriving DecidableEq, Repr

/-- The `IHttpRequestOptions` record assembled before a request is sent
(the fields the pipeline sets). Bodies and query strings are modelled as
key-value association lists. -/
structure HttpOptions where
  method : String
  url : String
  headers : List (String × String)
  body : Option (List (String × String))
  qs : Option (List (String × String))
  returnFullResponse : Bool
  ignoreHttpStatusErrors : Bool
deriving DecidableEq, Repr

/-- Outcome of a single `this.helpers.httpRequest(options)` call. -/
inductive HttpOutcome (α : Type) where
  | ok (data : α)
  | err (e : HttpError)
deriving DecidableEq, Repr

/-- Model of `error.statusCode || error.response?.statusCode`
(GenericFunctions.ts line 255). -/
def resolvedStatus (e : HttpError) : Option Nat :=
  jsOrOptNat e.statusCode e.responseStatusCode

/-- Model of `RETRY_STATUS_CODES.includes(statusCode)`: membership of the resolved
status in the retryable set; `includes(undefined)` is `false`. -/
def isRetryableStatus : Option Nat → Bool
  | some n => RETRY_STATUS_CODES.contains n
  | none => false

/-- Model of `homebridgeApiRequestWithRetry` (GenericFunctions.ts lines 246-269).

The network is an oracle from the dispatched options and the current
`retryCount` to an outcome. Besides the final result the model returns
the list of backoff delays waited (in ms) and the total number of
attempts made, so that waiting and attempt counting are observable. -/
def homebridgeApiRequestWithRetry {α : Type} (options : HttpOptions)
    (oracle : HttpOptions → Nat → HttpOutcome α) (retryCount : Nat) :
    Except HttpError α × List Nat × Nat :=
  match oracle options retryCount with
  | .ok response => (.ok response, [], 1)
  | .err e =>
    if h : isRetryableStatus (resolvedStatus e) = true ∧ retryCount < MAX_RETRIES then
      let delay := RETRY_DELAY * 2 ^ retryCount
      let rest := homebridgeApiRequestWithRetry options oracle (retryCount + 1)
      (rest.1, delay :: rest.2.1, rest.2.2 + 1)
    else
      (.error e, [], 1)
termination_by MAX_RETRIES - retryCount
decreasing_by
  have := h.2
  omega

/-- The total attempt count of a retry run started at `retryCount` is at
most `MAX_RETRIES + 1 - retryCount`. -/
theorem homebridgeApiRequestWithRetry_attempts_le {α : Type} (options : HttpOptions)
    (oracle : HttpOptions → Nat → HttpOutcome α) (retryCount : Nat)
    (hrc : retryCount ≤ MAX_RETRIES) :
    (homebridgeApiRequestWithRetry options oracle retryCount).2.2 ≤
      MAX_RETRIES + 1 - retryCount := by
  suffices H : ∀ k rc, MAX_RETRIES - rc = k → rc ≤ MAX_RETRIES →
      (homebridgeApiRequestWithRetry options oracle rc).2.2 ≤ MAX_RETRIES + 1 - rc by
    exact H _ retryCount rfl hrc
  intro k
  induction k using Nat.strong_induction_on with
  | _ k ih =>
    intro rc hk hrc
    rw [homebridgeApiRequestWithRetry]
    split
    · simp
      omega
    · rename_i e _
      by_cases h : isRetryableStatus (resolvedStatus e) = true ∧ rc < MAX_RETRIES
      · rw [dif_pos h]
        have := ih (MAX_RETRIES - (rc + 1)) (by omega) (rc + 1) rfl (by omega)
        simp only
        omega
      · rw [dif_neg h]
        simp
        omega

/-! ## Error Normalizer (`handleApiError`, GenericFunctions.ts lines 279-332) -/

/-- The user-facing `NodeApiError` payload produced by `handleApiError`. -/
structure NormalizedError where
  message : String
  description : String
  httpCode : String
deriving DecidableEq, Repr

/-- Model of `error.statusCode || error.response?.statusCode || 500`
(GenericFunctions.ts line 285). -/
def statusWithDefault (e : HttpError) : Nat :=
  match jsOrOptNat e.statusCode e.responseStatusCode with
  | some n => if n = 0 then 500 else n
  | none => 500

/-- Model of `handleApiError` (GenericFunctions.ts lines 279-332): maps a failure to
a normalized message/description pair keyed on the resolved status code. -/
def handleApiError (e : HttpError) (endpoint method : String) : NormalizedError :=
  let statusCode := statusWithDefault e
  let errorMessage := jsOrStr e.message "Unknown error"
  let defaultMessage := "Homebridge API Error (" ++ method ++ " " ++ endpoint ++ ")"
  let pair : String × String :=
    if statusCode = 400 then
      ("Bad Request", "The request was invalid. Please check your parameters.")
    else if statusCode = 401 then
      ("Unauthorized", "Access token is invalid or expired. Please authenticate again.")
    else if statusCode = 403 then
      ("Forbidden", "You do not have permission to perform this action.")
    else if statusCode = 404 then
      ("Not Found", "The requested resource was not found.")
    else if statusCode = 422 then
      ("Validation Error", "The request data is invalid. " ++ jsOrStr e.bodyMessage "")
    else if statusCode = 429 then
      ("Rate Limit Exceeded", "Too many requests. Please wait before trying again.")
    else if statusCode = 500 ∨ statusCode = 502 ∨ statusCode = 503 ∨ statusCode = 504 then
      ("Server Error", "The Homebridge server encountered an error. Please try again later.")
    else
      (defaultMessage, errorMessage)
  { message := pair.1, description := pair.2, httpCode := toString statusCode }

/-! ## Token Resolver (`getAccessToken`, GenericFunctions.ts lines 147-185) -/

/-- The `json` payload of an upstream workflow item: either a plain object
(of which only the `access_token` field matters, `none` meaning absent)
or an array of objects (each represented by its `access_token` field,
`none` also covering a null first element). -/
inductive JsonPayload where
  | obj (access_token : Option String)
  | arr (elems : List (Option String))
deriving DecidableEq, Repr

/-- The per-item scan inside `getAccessToken`: `item.json.access_token`
is checked first (on an array payload that property access yields
`undefined`, which is falsy), then `Array.isArray(item.json)` leads to
the first element's `access_token`. -/
def tokenOfPayload : JsonPayload → Option String
  | .obj tok => if jsTruthyOptStr tok then tok else none
  | .arr elems =>
    match elems with
    | [] => none
    | first :: _ => if jsTruthyOptStr first then first else none

/-- The `NodeOperationError` message thrown when no token is found. -/
def noAccessTokenMessage : String :=
  "No access token available. Please either:\n" ++
  "1. Connect a Login node to this node, or\n" ++
  "2. Manually enter the access token in the \"Access Token\" field."

/-- Model of `getAccessToken` (GenericFunctions.ts lines 147-185): prefer the
explicit `accessToken` node parameter when truthy, otherwise scan the
input item at `itemIndex`, otherwise fail. (In JavaScript an out-of-range
`itemIndex` on a non-empty input list raises a `TypeError`; the model is
stated and used only for in-range indices or empty input.) -/
def getAccessToken (accessTokenParam : String) (items : List JsonPayload)
    (itemIndex : Nat) : Except String String :=
  if jsTruthyStr accessTokenParam then .ok accessTokenParam
  else
    let fromItems : Option String :=
      if items.length > 0 then
        match items.get? itemIndex with
        | some item => tokenOfPayload item
        | none => none
      else none
    match fromItems with
    | some t => .ok t
    | none => .error noAccessTokenMessage

/-! ## Live node preSend hook (`addAuthToRequest`, src/unnamed/part_000 lines 24-68)

The live node resolves the bearer token in its routing preSend hook, with
the opposite preference order to the reference `getAccessToken`: upstream
input data is scanned first, ALL items in order, and the explicit
`accessToken` node parameter is consulted only when that scan finds
nothing. -/

/-- The upstream scan loop of `addAuthToRequest` (part_000 lines 26-51):
iterate over all input items in order, skipping an item whose `json`
property is falsy (modelled by `none`), and break with the first truthy
token found — the object field first, else the first element of an array
payload (the same per-item check as `tokenOfPayload`). -/
def scanItemsForToken : List (Option JsonPayload) → Option String
  | [] => none
  | none :: rest => scanItemsForToken rest
  | some payload :: rest =>
    match tokenOfPayload payload with
    | some t => some t
    | none => scanItemsForToken rest

/-- The `Error` message thrown by `addAuthToRequest` (part_000 line 60)
when neither source yields a token. -/
def addAuthNoTokenMessage : String :=
  "No access token available. Please either: 1) Connect the Login node to this node, " ++
  "or 2) Manually enter the access token in the \"Access Token\" field."

/-- Token resolution of `addAuthToRequest` (part_000 lines 24-62) for a
non-login request: the upstream scan runs first; only `if (!accessToken)`
is the explicit `accessToken` parameter consulted; if that is also empty
the hook throws. -/
def addAuthToRequestToken (upstreamItems : List (Option JsonPayload))
    (accessTokenParam : String) : Except String String :=
  match scanItemsForToken upstreamItems with
  | some t => .ok t
  | none =>
    if jsTruthyStr accessTokenParam then .ok accessTokenParam
    else .error addAuthNoTokenMessage

/-- Model of `addAuthToRequest` (part_000 lines 24-71) for a non-login
request: resolve the token, then spread an `Authorization: Bearer` header
onto the request options (the spread puts the Authorization entry last). -/
def addAuthToRequest (requestOptions : HttpOptions)
    (upstreamItems : List (Option JsonPayload)) (accessTokenParam : String) :
    Except String HttpOptions :=
  match addAuthToRequestToken upstreamItems accessTokenParam with
  | .error msg => .error msg
  | .ok token =>
    .ok { requestOptions with
          headers := requestOptions.headers ++ [("Authorization", "Bearer " ++ token)] }

/-! ## Authentication (`authenticate`, GenericFunctions.ts lines 97-139) -/

/-- The parsed login response; `access_token` is `none` when absent. -/
structure LoginResponse where
  access_token : Option String
deriving DecidableEq, Repr

/-- Outcome of the single login POST. -/
inductive LoginOutcome where
  | success (resp : LoginResponse)
  | failure (e : HttpError)
deriving DecidableEq, Repr

/-- A value thrown inside the `try` block of `authenticate`: either the
transport failure, or the `NodeApiError` thrown when a 2xx response
carries no access token. -/
inductive AuthThrown where
  | httpErr (e : HttpError)
  | noTokenApiError
deriving DecidableEq, Repr

/-- Model of `error.statusCode` of a thrown value: the no-token `NodeApiError`
carries no `statusCode` property. -/
def authThrownStatusCode : AuthThrown → Option Nat
  | .httpErr e => e.statusCode
  | .noTokenApiError => none

/-- The error `authenticate` ultimately throws. -/
inductive AuthError where
  | authenticationFailed (message description : String)
  | apiErrorWrapping (inner : AuthThrown)
deriving DecidableEq, Repr

/-- The message of the `NodeApiError` thrown when the login response has
no access token. -/
def noTokenReceivedMessage : String := "Login successful but no access token received"

/-- The request options built by `authenticate` (GenericFunctions.ts
lines 102-116): one POST to the login endpoint, no bearer header. -/
def authLoginOptions (credentials : HomebridgeCredentials) (otp : Option String) :
    HttpOptions :=
  { method := "POST"
    url := credentials.serverUrl ++ "/api/auth/login"
    headers := [("Accept", "application/json"), ("Content-Type", "application/json")]
    body := some ([("username", credentials.username), ("password", credentials.password)] ++
      (if jsTruthyOptStr otp then [("otp", otp.getD "")] else []))
    qs := none
    returnFullResponse := false
    ignoreHttpStatusErrors := false }

/-- Model of `authenticate` (GenericFunctions.ts lines 97-139) applied to the
outcome of its single `httpRequest` call. A 2xx response without a truthy
`access_token` throws inside the `try`, so that `NodeApiError` reaches the
`catch`, fails its `statusCode === 401` test and is re-wrapped; a 401
transport failure becomes the authentication-failed error; any other
failure is wrapped unchanged. -/
def authenticate (outcome : LoginOutcome) : Except AuthError String :=
  let tryResult : Except AuthThrown String :=
    match outcome with
    | .failure e => .error (.httpErr e)
    | .success resp =>
      if jsTruthyOptStr resp.access_token then .ok (resp.access_token.getD "")
      else .error .noTokenApiError
  match tryResult with
  | .ok token => .ok token
  | .error thrown =>
    if authThrownStatusCode thrown = some 401 then
      .error (.authenticationFailed "Authentication failed"
        "Invalid username, password, or 2FA code. Please check your credentials.")
    else
      .error (.apiErrorWrapping thrown)

/-! ## Request Dispatcher (`homebridgeApiRequest`, GenericFunctions.ts lines 201-237) -/

/-- Model of `if (!endpoint.startsWith('/')) endpoint = '/' + endpoint`
(GenericFunctions.ts lines 213-215). -/
def normalizeEndpoint (endpoint : String) : String :=
  if tsStartsWith endpoint "/" then endpoint else "/" ++ endpoint

/-- The request options built by `homebridgeApiRequest`
(GenericFunctions.ts lines 217-229). -/
def buildApiRequestOptions (serverUrl accessToken method endpoint : String)
    (body qs : Option (List (String × String))) : HttpOptions :=
  { method := method
    url := serverUrl ++ normalizeEndpoint endpoint
    headers := [("Accept", "application/json"), ("Content-Type", "application/json"),
      ("Authorization", "Bearer " ++ accessToken)]
    body := body
    qs := qs
    returnFullResponse := false
    ignoreHttpStatusErrors := true }

/-- Model of `homebridgeApiRequest` (GenericFunctions.ts lines 201-237), given the
already-resolved server URL and access token: builds the options, runs the
retry wrapper starting at retry count 0, and normalizes a final failure
through `handleApiError` (which receives the normalized endpoint, since
the TypeScript reassigns `endpoint` before the `try`). Delay and attempt
traces are passed through from the retry wrapper. -/
def homebridgeApiRequest {α : Type} (serverUrl accessToken method endpoint : String)
    (body qs : Option (List (String × String)))
    (oracle : HttpOptions → Nat → HttpOutcome α) :
    Except NormalizedError α × List Nat × Nat :=
  let ep := normalizeEndpoint endpoint
  let options := buildApiRequestOptions serverUrl accessToken method endpoint body qs
  let run := homebridgeApiRequestWithRetry options oracle 0
  (match run.1 with
   | .ok response => .ok response
   | .error e => .error (handleApiError e ep method), run.2.1, run.2.2)

/-! ## Batch Runner (`executeBatchOperations`, GenericFunctions.ts lines 497-532) -/

/-- One entry of the operations array passed to the batch runner. -/
structure BatchOperation where
  method : String
  endpoint : String
  body : Option (List (String × String))
  qs : Option (List (String × String))
deriving DecidableEq, Repr

/-- One entry of the results array: `\x7b success: true, data \x7d` or
`\x7b success: false, error \x7d`. -/
inductive BatchItemResult (α : Type) where
  | success (data : α)
  | failure (error : String)
deriving DecidableEq, Repr

/-- The `for` loop of `executeBatchOperations`, carrying the current
index `i` (which is also passed to `homebridgeApiRequest` as the item
index). `run i op` models the outcome of
`homebridgeApiRequest.call(this, op.method, op.endpoint, op.body, op.qs, i)`,
an error being represented by its `error.message`. -/
def batchLoop {α : Type} (run : Nat → BatchOperation → Except String α) (i : Nat) :
    List BatchOperation → List (BatchItemResult α)
  | [] => []
  | op :: rest =>
    (match run i op with
     | .ok data => .success data
     | .error msg => .failure msg) :: batchLoop run (i + 1) rest

/-- Model of `executeBatchOperations` (GenericFunctions.ts lines 497-532). -/
def executeBatchOperations {α : Type} (run : Nat → BatchOperation → Except String α)
    (operations : List BatchOperation) : List (BatchItemResult α) :=
  batchLoop run 0 operations

/-! ## Pagination Helper (`handlePaginatedRequest`, GenericFunctions.ts lines 548-586) -/

/-- A page response: the parsed JSON body is either an array or a single
object. -/
inductive PageResp (α : Type) where
  | arr (items : List α)
  | obj (o : α)
deriving DecidableEq, Repr

/-- Model of `Array.isArray(response) ? response : [response]`
(GenericFunctions.ts line 570). -/
def toItemList {α : Type} : PageResp α → List α
  | .arr items => items
  | .obj o => [o]

/-- The fixed page size (GenericFunctions.ts line 558). -/
def pageSize : Nat := 100

/-- The `do`-loop of `handlePaginatedRequest` (GenericFunctions.ts lines
560-583), with explicit fuel standing for the absent loop bound (the
source loops forever against a server that never returns a short page;
`none` marks fuel exhaustion). `fetch page size` is the response to the
request issued with query parameters `page` and `limit := size`; the
returned trace lists the `(page, size)` pairs actually requested. -/
def paginateLoop {α : Type} (fetch : Nat → Nat → PageResp α) (limit : Nat) :
    Nat → Nat → List α → Option (List α × List (Nat × Nat))
  | 0, _, _ => none
  | fuel + 1, page, acc =>
    let response := fetch page pageSize
    let items := toItemList response
    let allItems := acc ++ items
    if limit > 0 ∧ allItems.length ≥ limit then
      some (allItems.take limit, [(page, pageSize)])
    else if items.length < pageSize then
      some (allItems, [(page, pageSize)])
    else
      match paginateLoop fetch limit fuel (page + 1) allItems with
      | none => none
      | some (result, reqs) => some (result, (page, pageSize) :: reqs)

/-- Model of `handlePaginatedRequest` (GenericFunctions.ts lines 548-586): the loop
starts at page 1 with an empty accumulator. -/
def handlePaginatedRequest {α : Type} (fetch : Nat → Nat → PageResp α)
    (limit : Nat) (fuel : Nat) : Option (List α × List (Nat × Nat)) :=
  paginateLoop fetch limit fuel 1 []

/-! ## Concrete fixtures used by witnesses and counterexamples -/

/-- A 503 transport failure (retryable status). -/
def retryWitnessError : HttpError :=
  { statusCode := some 503, responseStatusCode := none,
    message := some "Service Unavailable", bodyMessage := none }

/-- Options of a sample GET request. -/
def retryWitnessOptions : HttpOptions :=
  buildApiRequestOptions "http://host:8581" "tok123" "GET" "/api/accessories" none none

/-- A network oracle failing with 503 on attempts 0-2 and succeeding on
attempt 3. -/
def retryWitnessOracle : HttpOptions → Nat → HttpOutcome Nat :=
  fun _ attempt => if attempt < 3 then .err retryWitnessError else .ok 7

/-- A transport failure carrying no HTTP status at all (DNS failure,
connection refused). -/
def noStatusNetworkError : HttpError :=
  { statusCode := none, responseStatusCode := none,
    message := some "connect ECONNREFUSED 127.0.0.1:8581", bodyMessage := none }

/-- A network oracle that always fails without a status code. -/
def noStatusOracle : HttpOptions → Nat → HttpOutcome Nat :=
  fun _ _ => .err noStatusNetworkError

/-- A failure with an unlisted status code (418). -/
def teapotError : HttpError :=
  { statusCode := some 418, responseStatusCode := none,
    message := some "I am a teapot", bodyMessage := none }

/-- A 401 login failure. -/
def loginError401 : HttpError :=
  { statusCode := some 401, responseStatusCode := none,
    message := some "Unauthorized", bodyMessage := none }

/-- Three sample batch operations. -/
def batchWitnessOps : List BatchOperation :=
  [⟨"GET", "/api/status/cpu", none, none⟩,
   ⟨"GET", "/api/status/ram", none, none⟩,
   ⟨"GET", "/api/status/uptime", none, none⟩]

/-- A batch executor whose second item (index 1) fails. -/
def batchWitnessRun : Nat → BatchOperation → Except String Nat :=
  fun i _ => if i = 1 then .error "Not Found" else .ok i

/-- A paginated endpoint serving pages of sizes 100, 100, 40. -/
def paginationOracleA : Nat → Nat → PageResp Nat :=
  fun page _ =>
    if page ≤ 2 then .arr (List.replicate 100 0) else .arr (List.replicate 40 0)

/-- A paginated endpoint serving full pages of size 100 forever. -/
def paginationOracleB : Nat → Nat → PageResp Nat :=
  fun _ _ => .arr (List.replicate 100 0)

/-- A network oracle that always succeeds immediately. -/
def dispatchWitnessOracle : HttpOptions → Nat → HttpOutcome Nat :=
  fun _ _ => .ok 42

/-- A paginated endpoint that always returns a single object. -/
def singleObjectOracle : Nat → Nat → PageResp Nat :=
  fun _ _ => .obj 5

/-! ## Claim theorems -/

set_option maxRecDepth 10000

/-- C8: for every base URL string, the Credential Resolver strips exactly
one trailing slash when the string ends in a slash and leaves the string
unchanged otherwise; the transformation is the identity (hence idempotent)
on URLs without a trailing slash, and a URL ending in two slashes keeps
one trailing slash after resolution. -/
theorem credential_resolver_trailing_slash (raw : RawCredentials)
    (hs : raw.serverUrl ≠ "") (hu : raw.username ≠ "") (hp : raw.password ≠ "") :
    getCredentials (some raw) =
      .ok { serverUrl := stripTrailingSlash raw.serverUrl, username := raw.username,
            password := raw.password, otp := raw.otp } ∧
    (∀ u : String, tsEndsWith u "/" = true → stripTrailingSlash u ++ "/" = u) ∧
    (∀ u : String, tsEndsWith u "/" = false → stripTrailingSlash u = u) ∧
    (∀ u : String, stripTrailingSlash (u ++ "//") = u ++ "/" ∧
      tsEndsWith (stripTrailingSlash (u ++ "//")) "/" = true) := by
  refine ⟨?_, stripTrailingSlash_restores, stripTrailingSlash_of_not_endsWith, ?_⟩
  · simp [getCredentials, jsTruthyStr, hs, hu, hp]
  · intro u
    have hsplit : u ++ "//" = (u ++ "/") ++ "/" := by
      apply String.ext
      simp [String.data_append]
    rw [hsplit, stripTrailingSlash_append_slash]
    exact ⟨rfl, tsEndsWith_append_slash u⟩

/-- Witness for C8 at a concrete credential record. -/
theorem credential_resolver_trailing_slash_witness :
    ("http://host:8581/" ≠ "" ∧ "admin" ≠ "" ∧ "secret" ≠ "") ∧
    (getCredentials (some ⟨"http://host:8581/", "admin", "secret", none⟩) =
      .ok { serverUrl := stripTrailingSlash "http://host:8581/", username := "admin",
            password := "secret", otp := none } ∧
    (∀ u : String, tsEndsWith u "/" = true → stripTrailingSlash u ++ "/" = u) ∧
    (∀ u : String, tsEndsWith u "/" = false → stripTrailingSlash u = u) ∧
    (∀ u : String, stripTrailingSlash (u ++ "//") = u ++ "/" ∧
      tsEndsWith (stripTrailingSlash (u ++ "//")) "/" = true)) :=
  ⟨⟨by decide, by decide, by decide⟩,
   credential_resolver_trailing_slash ⟨"http://host:8581/", "admin", "secret", none⟩
     (by decide) (by decide) (by decide)⟩

/-- C1: on a dispatch failure whose resolved status is in
`RETRY_STATUS_CODES` with the attempt count below `MAX_RETRIES`, the
Retry Policy waits `RETRY_DELAY * 2 ^ retryCount` milliseconds and
re-dispatches the identical options with the count incremented; any other
failure propagates unchanged after a single attempt; a top-level call
(attempt count 0) makes at most `MAX_RETRIES + 1 = 4` attempts. -/
theorem retry_policy_correct {α : Type} (options : HttpOptions)
    (oracle : HttpOptions → Nat → HttpOutcome α) (retryCount : Nat) (e : HttpError)
    (hfail : oracle options retryCount = .err e) :
    (isRetryableStatus (resolvedStatus e) = true → retryCount < MAX_RETRIES →
      homebridgeApiRequestWithRetry options oracle retryCount =
        ((homebridgeApiRequestWithRetry options oracle (retryCount + 1)).1,
         RETRY_DELAY * 2 ^ retryCount ::
           (homebridgeApiRequestWithRetry options oracle (retryCount + 1)).2.1,
         (homebridgeApiRequestWithRetry options oracle (retryCount + 1)).2.2 + 1)) ∧
    (isRetryableStatus (resolvedStatus e) = false ∨ MAX_RETRIES ≤ retryCount →
      homebridgeApiRequestWithRetry options oracle retryCount = (.error e, [], 1)) ∧
    (homebridgeApiRequestWithRetry options oracle 0).2.2 ≤ MAX_RETRIES + 1 := by
  refine ⟨?_, ?_, ?_⟩
  · intro h1 h2
    rw [homebridgeApiRequestWithRetry]
    simp only [hfail]
    rw [dif_pos ⟨h1, h2⟩]
  · intro h
    rw [homebridgeApiRequestWithRetry]
    simp only [hfail]
    rw [dif_neg]
    intro hc
    rcases h with h | h
    · have hcontra := hc.1
      rw [h] at hcontra
      exact absurd hcontra (by simp)
    · exact absurd hc.2 (by omega)
  · have := homebridgeApiRequestWithRetry_attempts_le options oracle 0 (by simp [MAX_RETRIES])
    simpa using this

/-- Witness for C1: a retryable 503 failure at attempt 0. -/
theorem retry_policy_correct_witness :
    retryWitnessOracle retryWitnessOptions 0 = .err retryWitnessError ∧
    ((isRetryableStatus (resolvedStatus retryWitnessError) = true → 0 < MAX_RETRIES →
      homebridgeApiRequestWithRetry retryWitnessOptions retryWitnessOracle 0 =
        ((homebridgeApiRequestWithRetry retryWitnessOptions retryWitnessOracle 1).1,
         RETRY_DELAY * 2 ^ 0 ::
           (homebridgeApiRequestWithRetry retryWitnessOptions retryWitnessOracle 1).2.1,
         (homebridgeApiRequestWithRetry retryWitnessOptions retryWitnessOracle 1).2.2 + 1)) ∧
    (isRetryableStatus (resolvedStatus retryWitnessError) = false ∨ MAX_RETRIES ≤ 0 →
      homebridgeApiRequestWithRetry retryWitnessOptions retryWitnessOracle 0 =
        (.error retryWitnessError, [], 1)) ∧
    (homebridgeApiRequestWithRetry retryWitnessOptions retryWitnessOracle 0).2.2 ≤
      MAX_RETRIES + 1) :=
  ⟨rfl, retry_policy_correct retryWitnessOptions retryWitnessOracle 0 retryWitnessError rfl⟩

/-- C9: a dispatch failure carrying neither `error.statusCode` nor
`error.response.statusCode` resolves to no status, fails the membership
test against the retryable set, and propagates after a single attempt
with no retries and no delays. -/
theorem retry_policy_no_status {α : Type} (options : HttpOptions)
    (oracle : HttpOptions → Nat → HttpOutcome α) (retryCount : Nat) (e : HttpError)
    (hfail : oracle options retryCount = .err e)
    (h1 : e.statusCode = none) (h2 : e.responseStatusCode = none) :
    resolvedStatus e = none ∧
    isRetryableStatus (resolvedStatus e) = false ∧
    homebridgeApiRequestWithRetry options oracle retryCount = (.error e, [], 1) := by
  have hres : resolvedStatus e = none := by
    simp [resolvedStatus, jsOrOptNat, jsTruthyOptNat, h1, h2]
  refine ⟨hres, by simp [hres, isRetryableStatus], ?_⟩
  rw [homebridgeApiRequestWithRetry]
  simp only [hfail]
  rw [dif_neg]
  intro hc
  rw [hres] at hc
  simp [isRetryableStatus] at hc

/-- Witness for C9: a connection-refused style failure with no status. -/
theorem retry_policy_no_status_witness :
    noStatusOracle retryWitnessOptions 0 = .err noStatusNetworkError ∧
    noStatusNetworkError.statusCode = none ∧
    noStatusNetworkError.responseStatusCode = none ∧
    (resolvedStatus noStatusNetworkError = none ∧
     isRetryableStatus (resolvedStatus noStatusNetworkError) = false ∧
     homebridgeApiRequestWithRetry retryWitnessOptions noStatusOracle 0 =
       (.error noStatusNetworkError, [], 1)) :=
  ⟨rfl, rfl, rfl,
   retry_policy_no_status retryWitnessOptions noStatusOracle 0 noStatusNetworkError
     rfl rfl rfl⟩

/-- C3 counterexample: a failure carrying no status code at all is NOT
normalized to the default category; `statusCode || responseStatusCode || 500`
makes it a 500, so it gets the Server Error message, not the
"<METHOD> <path> Error" style message with the raw underlying message. -/
theorem error_normalizer_absent_status_counterexample :
    (handleApiError noStatusNetworkError "/api/accessories" "GET").message = "Server Error" ∧
    (handleApiError noStatusNetworkError "/api/accessories" "GET").httpCode = "500" ∧
    (handleApiError noStatusNetworkError "/api/accessories" "GET").message ≠
      "Homebridge API Error (GET /api/accessories)" ∧
    (handleApiError noStatusNetworkError "/api/accessories" "GET").description ≠
      "connect ECONNREFUSED 127.0.0.1:8581" := by
  refine ⟨rfl, rfl, ?_, ?_⟩ <;> decide

/-- C3 (amended): a failure whose resolved status code is present (and
nonzero) but not one of the ten listed codes keeps the default
"Homebridge API Error (<METHOD> <endpoint>)" message with the raw
underlying message as description; a failure with no status code at all
defaults to status 500 and is normalized as Server Error. -/
theorem error_normalizer_default_category (e : HttpError) (endpoint method : String)
    (n : Nat) (hres : jsOrOptNat e.statusCode e.responseStatusCode = some n) (hn0 : n ≠ 0)
    (hn : n ∉ ([400, 401, 403, 404, 422, 429, 500, 502, 503, 504] : List Nat)) :
    handleApiError e endpoint method =
      { message := "Homebridge API Error (" ++ method ++ " " ++ endpoint ++ ")",
        description := jsOrStr e.message "Unknown error",
        httpCode := toString n } ∧
    (∀ e2 : HttpError, e2.statusCode = none → e2.responseStatusCode = none →
      (handleApiError e2 endpoint method).message = "Server Error" ∧
      (handleApiError e2 endpoint method).httpCode = "500") := by
  simp only [List.mem_cons, List.not_mem_nil, or_false, not_or] at hn
  obtain ⟨h400, h401, h403, h404, h422, h429, h500, h502, h503, h504⟩ := hn
  constructor
  · simp [handleApiError, statusWithDefault, hres, hn0, h400, h401, h403, h404, h422,
      h429, h500, h502, h503, h504]
  · intro e2 ha hb
    simp only [handleApiError, statusWithDefault, jsOrOptNat, jsTruthyOptNat, ha, hb]
    exact ⟨rfl, rfl⟩

/-- Witness for C3 at status 418 (unlisted). -/
theorem error_normalizer_default_category_witness :
    jsOrOptNat (teapotError.statusCode) (teapotError.responseStatusCode) = some 418 ∧
    (418 : Nat) ≠ 0 ∧
    (418 : Nat) ∉ ([400, 401, 403, 404, 422, 429, 500, 502, 503, 504] : List Nat) ∧
    (handleApiError teapotError "/api/accessories" "GET" =
      { message := "Homebridge API Error (" ++ "GET" ++ " " ++ "/api/accessories" ++ ")",
        description := jsOrStr teapotError.message "Unknown error",
        httpCode := toString (418 : Nat) } ∧
    (∀ e2 : HttpError, e2.statusCode = none → e2.responseStatusCode = none →
      (handleApiError e2 "/api/accessories" "GET").message = "Server Error" ∧
      (handleApiError e2 "/api/accessories" "GET").httpCode = "500")) :=
  ⟨rfl, by decide, by decide,
   error_normalizer_default_category teapotError "/api/accessories" "GET" 418 rfl
     (by decide) (by decide)⟩

/-- C2 helper: the per-item scan only ever yields a non-empty token. -/
theorem tokenOfPayload_ne_empty (p : JsonPayload) (t : String)
    (h : tokenOfPayload p = some t) : t ≠ "" := by
  cases p with
  | obj tok =>
    cases tok with
    | none => simp [tokenOfPayload, jsTruthyOptStr] at h
    | some s =>
      by_cases hs : s = "" <;>
        simp [tokenOfPayload, jsTruthyOptStr, hs] at h
      exact h ▸ hs
  | arr elems =>
    cases elems with
    | nil => simp [tokenOfPayload] at h
    | cons first rest =>
      cases first with
      | none => simp [tokenOfPayload, jsTruthyOptStr] at h
      | some s =>
        by_cases hs : s = "" <;>
          simp [tokenOfPayload, jsTruthyOptStr, hs] at h
        exact h ▸ hs

/-- C2 helper: the upstream scan loop of the live preSend hook only ever
yields a non-empty token. -/
theorem scanItemsForToken_ne_empty (upstreamItems : List (Option JsonPayload)) (t : String)
    (h : scanItemsForToken upstreamItems = some t) : t ≠ "" := by
  induction upstreamItems with
  | nil => simp [scanItemsForToken] at h
  | cons item rest ih =>
    cases item with
    | none =>
      simp only [scanItemsForToken] at h
      exact ih h
    | some payload =>
      simp only [scanItemsForToken] at h
      cases hp : tokenOfPayload payload with
      | some t2 =>
        simp only [hp, Option.some.injEq] at h
        exact h ▸ tokenOfPayload_ne_empty payload t2 hp
      | none =>
        simp only [hp] at h
        exact ih h

/-- C2 counterexample: in the live node's preSend hook (`addAuthToRequest`,
part_000 lines 24-62) the upstream scan runs before the explicit
parameter, so with upstream output carrying access_token "upstream-tok"
and the non-empty explicit parameter "explicit-tok", the resolved token
is the upstream one — the non-empty explicit token is NOT returned. -/
theorem token_resolver_explicit_not_preferred_counterexample :
    addAuthToRequestToken [some (JsonPayload.obj (some "upstream-tok"))] "explicit-tok" =
      .ok "upstream-tok" ∧
    addAuthToRequestToken [some (JsonPayload.obj (some "upstream-tok"))] "explicit-tok" ≠
      .ok "explicit-tok" :=
  ⟨rfl, fun hcontra => absurd (Except.ok.inj hcontra) (by decide)⟩

/-- C2 (amended): the repository has two token resolvers with opposite
preference orders. In the reference `getAccessToken` a non-empty explicit
token parameter is always returned, regardless of upstream data; only
when it is empty is the input item scanned (object field first, else the
first element of an array payload), any token returned is non-empty, and
when no source yields a token it fails with the NoAccessToken message
telling the caller to chain a Login node or enter the token manually.
In the live node's preSend hook `addAuthToRequestToken` the upstream scan
runs first over all items and wins regardless of the explicit parameter
(its tokens are likewise non-empty); the non-empty explicit parameter is
used only when that scan finds nothing; when both sources are empty the
hook fails with its own chain-a-Login-node-or-enter-manually message; on
success the resolved token is spread onto the request headers as a
bearer Authorization header. -/
theorem token_resolver_correct (accessTokenParam : String) (items : List JsonPayload)
    (itemIndex : Nat) (upstreamItems : List (Option JsonPayload))
    (hidx : itemIndex < items.length ∨ items = []) :
    (accessTokenParam ≠ "" →
      getAccessToken accessTokenParam items itemIndex = .ok accessTokenParam) ∧
    (getAccessToken "" items itemIndex =
      match (items.get? itemIndex).bind tokenOfPayload with
      | some t => .ok t
      | none => .error noAccessTokenMessage) ∧
    (∀ t, getAccessToken "" items itemIndex = .ok t → t ≠ "") ∧
    noAccessTokenMessage =
      "No access token available. Please either:\n" ++
      "1. Connect a Login node to this node, or\n" ++
      "2. Manually enter the access token in the \"Access Token\" field." ∧
    (∀ t, scanItemsForToken upstreamItems = some t →
      addAuthToRequestToken upstreamItems accessTokenParam = .ok t) ∧
    (∀ t, scanItemsForToken upstreamItems = some t → t ≠ "") ∧
    (scanItemsForToken upstreamItems = none → accessTokenParam ≠ "" →
      addAuthToRequestToken upstreamItems accessTokenParam = .ok accessTokenParam) ∧
    (scanItemsForToken upstreamItems = none →
      addAuthToRequestToken upstreamItems "" = .error addAuthNoTokenMessage) ∧
    addAuthNoTokenMessage =
      "No access token available. Please either: 1) Connect the Login node to this node, " ++
      "or 2) Manually enter the access token in the \"Access Token\" field." ∧
    (∀ (requestOptions : HttpOptions) (t : String),
      addAuthToRequestToken upstreamItems accessTokenParam = .ok t →
      addAuthToRequest requestOptions upstreamItems accessTokenParam =
        .ok { requestOptions with
              headers := requestOptions.headers ++ [("Authorization", "Bearer " ++ t)] }) := by
  have hchar : getAccessToken "" items itemIndex =
      match (items.get? itemIndex).bind tokenOfPayload with
      | some t => .ok t
      | none => .error noAccessTokenMessage := by
    rcases hidx with hlt | hnil
    · have hlen : items.length > 0 := Nat.lt_of_le_of_lt (Nat.zero_le _) hlt
      cases hitem : items.get? itemIndex with
      | none =>
        rw [List.get?_eq_none] at hitem
        omega
      | some item =>
        simp only [getAccessToken, jsTruthyStr, hitem]
        simp only [if_pos hlen]
        simp only [ne_eq, not_true_eq_false, Bool.false_eq_true, if_false, Option.some_bind]
        cases tokenOfPayload item <;> simp
    · subst hnil
      simp [getAccessToken, jsTruthyStr]
  refine ⟨?_, hchar, ?_, rfl, ?_, ?_, ?_, ?_, rfl, ?_⟩
  · intro hparam
    simp [getAccessToken, jsTruthyStr, hparam]
  · intro t hok
    rw [hchar] at hok
    cases hbind : (items.get? itemIndex).bind tokenOfPayload with
    | none => rw [hbind] at hok; simp at hok
    | some t2 =>
      rw [hbind] at hok
      simp only [Except.ok.injEq] at hok
      obtain ⟨item, hitem, htok⟩ := Option.bind_eq_some.mp hbind
      exact hok ▸ tokenOfPayload_ne_empty item t2 htok
  · intro t hscan
    simp [addAuthToRequestToken, hscan]
  · intro t hscan
    exact scanItemsForToken_ne_empty upstreamItems t hscan
  · intro hscan hparam
    simp [addAuthToRequestToken, hscan, jsTruthyStr, hparam]
  · intro hscan
    simp [addAuthToRequestToken, hscan, jsTruthyStr]
  · intro requestOptions t hres
    simp [addAuthToRequest, hres]

/-- Witness for C2: the explicit parameter wins in the reference resolver,
while in the live hook the upstream token wins and the explicit parameter
is only a fallback. -/
theorem token_resolver_correct_witness :
    getAccessToken "tok-explicit" [JsonPayload.arr [some "abc"]] 0 = .ok "tok-explicit" ∧
    addAuthToRequestToken [some (JsonPayload.obj (some "upstream-tok"))] "tok-explicit" =
      .ok "upstream-tok" ∧
    addAuthToRequestToken [] "tok-explicit" = .ok "tok-explicit" ∧
    addAuthToRequestToken [] "" = .error addAuthNoTokenMessage :=
  ⟨(token_resolver_correct "tok-explicit" [JsonPayload.arr [some "abc"]] 0 []
      (Or.inl (by decide))).1 (by decide),
   (token_resolver_correct "tok-explicit" [JsonPayload.arr [some "abc"]] 0
      [some (JsonPayload.obj (some "upstream-tok"))]
      (Or.inl (by decide))).2.2.2.2.1 "upstream-tok" rfl,
   (token_resolver_correct "tok-explicit" [JsonPayload.arr [some "abc"]] 0 []
      (Or.inl (by decide))).2.2.2.2.2.2.1 rfl (by decide),
   (token_resolver_correct "tok-explicit" [JsonPayload.arr [some "abc"]] 0 []
      (Or.inl (by decide))).2.2.2.2.2.2.2.1 rfl⟩

/-- C4: the Authentication operation builds a single POST to the login
endpoint whose outcome is consumed exactly once (the model is a function
of one outcome; no retry wrapper is involved, so even a failure with a
retryable status surfaces immediately): a 401 failure becomes the
AuthenticationFailed error mentioning invalid username, password, or 2FA
code; a success without a truthy `access_token` throws the no-token
`NodeApiError`, which fails the 401 test in the catch and is re-wrapped
as an ApiError; any other failure is wrapped as an ApiError around the
underlying error; a success carrying a non-empty token returns it. -/
theorem authentication_correct (credentials : HomebridgeCredentials) (otp : Option String) :
    (authLoginOptions credentials otp).method = "POST" ∧
    (authLoginOptions credentials otp).url = credentials.serverUrl ++ "/api/auth/login" ∧
    (∀ e : HttpError, e.statusCode = some 401 →
      authenticate (.failure e) = .error (.authenticationFailed "Authentication failed"
        "Invalid username, password, or 2FA code. Please check your credentials.")) ∧
    (∀ resp : LoginResponse, jsTruthyOptStr resp.access_token = false →
      authenticate (.success resp) = .error (.apiErrorWrapping .noTokenApiError)) ∧
    noTokenReceivedMessage = "Login successful but no access token received" ∧
    (∀ e : HttpError, e.statusCode ≠ some 401 →
      authenticate (.failure e) = .error (.apiErrorWrapping (.httpErr e))) ∧
    (∀ (resp : LoginResponse) (t : String), resp.access_token = some t → t ≠ "" →
      authenticate (.success resp) = .ok t) := by
  refine ⟨rfl, rfl, ?_, ?_, rfl, ?_, ?_⟩
  · intro e he
    simp [authenticate, authThrownStatusCode, he]
  · intro resp hresp
    simp [authenticate, hresp, authThrownStatusCode]
  · intro e he
    simp [authenticate, authThrownStatusCode, he]
  · intro resp t ht hne
    simp [authenticate, ht, jsTruthyOptStr, hne]

/-- Witness for C4: a 401 login failure at a concrete credential record. -/
theorem authentication_correct_witness :
    loginError401.statusCode = some 401 ∧
    authenticate (.failure loginError401) =
      .error (.authenticationFailed "Authentication failed"
        "Invalid username, password, or 2FA code. Please check your credentials.") :=
  ⟨rfl,
   (authentication_correct ⟨"http://host:8581", "admin", "secret", none⟩ none).2.2.1
     loginError401 rfl⟩

/-- C5 helper: length of the batch loop output. -/
theorem batchLoop_length {α : Type} (run : Nat → BatchOperation → Except String α)
    (i : Nat) (ops : List BatchOperation) :
    (batchLoop run i ops).length = ops.length := by
  induction ops generalizing i with
  | nil => rfl
  | cons op rest ih => simp [batchLoop, ih]

/-- C5 helper: the j-th entry of the batch loop output started at index
`i` reflects the outcome of `run (i + j)` on the j-th operation. -/
theorem batchLoop_get? {α : Type} (run : Nat → BatchOperation → Except String α)
    (i j : Nat) (ops : List BatchOperation) :
    (batchLoop run i ops).get? j = (ops.get? j).map (fun op =>
      match run (i + j) op with
      | .ok data => .success data
      | .error msg => .failure msg) := by
  induction ops generalizing i j with
  | nil => simp [batchLoop]
  | cons op rest ih =>
    cases j with
    | zero => simp [batchLoop]
    | succ j =>
      simp only [batchLoop, List.get?_cons_succ, ih (i + 1) j]
      have : i + 1 + j = i + (j + 1) := by omega
      rw [this]

/-- C5: the Batch Runner returns one result per input operation, in the
input order: the i-th entry is a success wrapper around the i-th outcome
when it succeeded and a failure wrapper around its message when it
failed, and a single failure never prevents later items from appearing
in the result. -/
theorem batch_runner_correct {α : Type} (run : Nat → BatchOperation → Except String α)
    (operations : List BatchOperation) :
    (executeBatchOperations run operations).length = operations.length ∧
    (∀ (i : Nat) (op : BatchOperation), operations.get? i = some op →
      (executeBatchOperations run operations).get? i =
        some (match run i op with
              | .ok data => .success data
              | .error msg => .failure msg)) := by
  refine ⟨batchLoop_length run 0 operations, ?_⟩
  intro i op hop
  rw [executeBatchOperations, batchLoop_get? run 0 i operations, hop]
  simp

/-- Witness for C5: three operations where the second fails. -/
theorem batch_runner_correct_witness :
    batchWitnessOps.get? 1 = some ⟨"GET", "/api/status/ram", none, none⟩ ∧
    (executeBatchOperations batchWitnessRun batchWitnessOps).length = 3 ∧
    (executeBatchOperations batchWitnessRun batchWitnessOps).get? 1 =
      some (match batchWitnessRun 1 ⟨"GET", "/api/status/ram", none, none⟩ with
            | .ok data => .success data
            | .error msg => .failure msg) :=
  ⟨rfl, (batch_runner_correct batchWitnessRun batchWitnessOps).1,
   (batch_runner_correct batchWitnessRun batchWitnessOps).2 1
     ⟨"GET", "/api/status/ram", none, none⟩ rfl⟩

/-- C6 helper: every successful pagination run requests consecutive pages
starting at its initial page, each with the fixed page size. -/
theorem paginateLoop_reqs_consecutive {α : Type} (fetch : Nat → Nat → PageResp α)
    (limit : Nat) :
    ∀ (fuel page : Nat) (acc res : List α) (reqs : List (Nat × Nat)),
      paginateLoop fetch limit fuel page acc = some (res, reqs) →
      reqs = (List.range' page reqs.length).map (fun p => (p, pageSize)) := by
  intro fuel
  induction fuel with
  | zero =>
    intro page acc res reqs h
    simp [paginateLoop] at h
  | succ fuel ih =>
    intro page acc res reqs h
    simp only [paginateLoop] at h
    split at h
    · simp only [Option.some.injEq, Prod.mk.injEq] at h
      rw [← h.2]
      simp [List.range']
    · split at h
      · simp only [Option.some.injEq, Prod.mk.injEq] at h
        rw [← h.2]
        simp [List.range']
      · cases hm : paginateLoop fetch limit fuel (page + 1)
            (acc ++ toItemList (fetch page pageSize)) with
        | none => rw [hm] at h; simp at h
        | some pr =>
          obtain ⟨r, reqs'⟩ := pr
          rw [hm] at h
          simp only [Option.some.injEq, Prod.mk.injEq] at h
          have hrec := ih (page + 1) (acc ++ toItemList (fetch page pageSize)) r reqs' hm
          rw [← h.2, hrec]
          simp [List.range'_succ]

/-- C6: the Pagination Helper requests consecutive pages starting at 1
with fixed page size 100; it stops and truncates to exactly the limit as
soon as a positive limit is reached, stops at a page shorter than 100
items, and otherwise continues with the next page; the two spec scenarios
evaluate as stated (240 items over 3 pages without a limit; exactly 150
items over 2 pages with limit 150). -/
theorem pagination_helper_correct :
    (∀ (α : Type) (fetch : Nat → Nat → PageResp α) (limit fuel page : Nat) (acc : List α),
      limit > 0 → (acc ++ toItemList (fetch page pageSize)).length ≥ limit →
      paginateLoop fetch limit (fuel + 1) page acc =
        some ((acc ++ toItemList (fetch page pageSize)).take limit, [(page, pageSize)]) ∧
      ((acc ++ toItemList (fetch page pageSize)).take limit).length = limit) ∧
    (∀ (α : Type) (fetch : Nat → Nat → PageResp α) (limit fuel page : Nat) (acc : List α),
      ¬(limit > 0 ∧ (acc ++ toItemList (fetch page pageSize)).length ≥ limit) →
      (toItemList (fetch page pageSize)).length < pageSize →
      paginateLoop fetch limit (fuel + 1) page acc =
        some (acc ++ toItemList (fetch page pageSize), [(page, pageSize)])) ∧
    (∀ (α : Type) (fetch : Nat → Nat → PageResp α) (limit fuel page : Nat) (acc : List α),
      ¬(limit > 0 ∧ (acc ++ toItemList (fetch page pageSize)).length ≥ limit) →
      ¬((toItemList (fetch page pageSize)).length < pageSize) →
      paginateLoop fetch limit (fuel + 1) page acc =
        match paginateLoop fetch limit fuel (page + 1)
            (acc ++ toItemList (fetch page pageSize)) with
        | none => none
        | some (result, reqs) => some (result, (page, pageSize) :: reqs)) ∧
    (∀ (α : Type) (fetch : Nat → Nat → PageResp α) (limit fuel : Nat)
        (res : List α) (reqs : List (Nat × Nat)),
      handlePaginatedRequest fetch limit fuel = some (res, reqs) →
      reqs = (List.range' 1 reqs.length).map (fun p => (p, pageSize))) ∧
    handlePaginatedRequest paginationOracleA 0 10 =
      some (List.replicate 240 0, [(1, 100), (2, 100), (3, 100)]) ∧
    handlePaginatedRequest paginationOracleB 150 10 =
      some (List.replicate 150 0, [(1, 100), (2, 100)]) := by
  refine ⟨?_, ?_, ?_, ?_, ?_, ?_⟩
  · intro α fetch limit fuel page acc hl hge
    constructor
    · simp only [paginateLoop]
      rw [if_pos ⟨hl, hge⟩]
    · simp only [List.length_take]
      omega
  · intro α fetch limit fuel page acc hno hshort
    simp only [paginateLoop]
    rw [if_neg hno, if_pos hshort]
  · intro α fetch limit fuel page acc hno hlong
    simp only [paginateLoop]
    rw [if_neg hno, if_neg hlong]
  · intro α fetch limit fuel res reqs h
    exact paginateLoop_reqs_consecutive fetch limit fuel 1 [] res reqs h
  · decide
  · decide

/-- Witness for C6: the limit-stop conjunct at a concrete input
(limit 150 reached after page 2). -/
theorem pagination_helper_correct_witness :
    ((150 : Nat) > 0 ∧
      ((List.replicate 100 0 ++ toItemList (paginationOracleB 2 pageSize)).length ≥ 150)) ∧
    (paginateLoop paginationOracleB 150 (8 + 1) 2 (List.replicate 100 0) =
      some ((List.replicate 100 0 ++ toItemList (paginationOracleB 2 pageSize)).take 150,
        [(2, pageSize)]) ∧
    ((List.replicate 100 0 ++ toItemList (paginationOracleB 2 pageSize)).take 150).length
      = 150) :=
  ⟨⟨by decide, by decide⟩,
   pagination_helper_correct.1 Nat paginationOracleB 150 8 2 (List.replicate 100 0)
     (by decide) (by decide)⟩

/-- C7 helper: the normalized endpoint always begins with a slash. -/
theorem tsStartsWith_normalizeEndpoint (endpoint : String) :
    tsStartsWith (normalizeEndpoint endpoint) "/" = true := by
  rw [normalizeEndpoint]
  by_cases h : tsStartsWith endpoint "/" = true
  · rw [if_pos h]
    exact h
  · rw [if_neg h]
    have hdata : ("/" ++ endpoint).data = ['/'] ++ endpoint.data := by
      simp [String.data_append]
    simp only [tsStartsWith, hdata, List.isPrefixOf_iff_prefix]
    exact List.prefix_append ['/'] endpoint.data

/-- C7: the Request Dispatcher targets the concatenation of the base URL
and the normalized path (a leading slash is prepended when missing), with
the JSON Accept/Content-Type headers and the bearer Authorization header;
when the first attempt succeeds the pipeline performs exactly one HTTP
request and returns its data. -/
theorem request_dispatcher_correct {α : Type} (serverUrl accessToken method endpoint : String)
    (body qs : Option (List (String × String)))
    (oracle : HttpOptions → Nat → HttpOutcome α) (d : α) :
    (buildApiRequestOptions serverUrl accessToken method endpoint body qs).url =
      serverUrl ++ normalizeEndpoint endpoint ∧
    tsStartsWith (normalizeEndpoint endpoint) "/" = true ∧
    (buildApiRequestOptions serverUrl accessToken method endpoint body qs).headers =
      [("Accept", "application/json"), ("Content-Type", "application/json"),
       ("Authorization", "Bearer " ++ accessToken)] ∧
    (oracle (buildApiRequestOptions serverUrl accessToken method endpoint body qs) 0 = .ok d →
      homebridgeApiRequest serverUrl accessToken method endpoint body qs oracle =
        (.ok d, [], 1)) := by
  refine ⟨rfl, tsStartsWith_normalizeEndpoint endpoint, rfl, ?_⟩
  intro hok
  have hrun : homebridgeApiRequestWithRetry
      (buildApiRequestOptions serverUrl accessToken method endpoint body qs) oracle 0 =
      (.ok d, [], 1) := by
    rw [homebridgeApiRequestWithRetry]
    simp [hok]
  simp [homebridgeApiRequest, hrun]

/-- Witness for C7: a GET on an endpoint missing the leading slash. -/
theorem request_dispatcher_correct_witness :
    dispatchWitnessOracle
      (buildApiRequestOptions "http://host:8581" "tok123" "GET" "api/accessories" none none)
      0 = .ok 42 ∧
    homebridgeApiRequest "http://host:8581" "tok123" "GET" "api/accessories" none none
      dispatchWitnessOracle = (.ok 42, [], 1) :=
  ⟨rfl,
   (request_dispatcher_correct "http://host:8581" "tok123" "GET" "api/accessories"
     none none dispatchWitnessOracle 42).2.2.2 rfl⟩

/-- C10: a single-object page response is wrapped into a one-element
list; since 1 is fewer than the page size 100 (or a positive limit is
reached at once), the loop stops after the first page, so against an
endpoint that always returns a single object the helper performs exactly
one request (page 1, size 100) and returns a one-element list. -/
theorem pagination_single_object {α : Type} (o : α) (fetch : Nat → Nat → PageResp α)
    (limit fuel : Nat) (hobj : ∀ p s, fetch p s = .obj o) (hfuel : 0 < fuel) :
    toItemList (PageResp.obj o) = [o] ∧
    handlePaginatedRequest fetch limit fuel = some ([o], [(1, pageSize)]) := by
  refine ⟨rfl, ?_⟩
  obtain ⟨k, rfl⟩ : ∃ k, fuel = k + 1 := ⟨fuel - 1, by omega⟩
  rw [handlePaginatedRequest]
  simp only [paginateLoop, hobj 1 pageSize, toItemList, List.nil_append]
  by_cases hl : limit > 0 ∧ ([o] : List α).length ≥ limit
  · rw [if_pos hl]
    have hlim : limit = 1 := by
      have := hl.2
      simp at this
      omega
    subst hlim
    rfl
  · rw [if_neg hl, if_pos]
    simp [pageSize]

/-- Witness for C10: an endpoint always returning one object. -/
theorem pagination_single_object_witness :
    (∀ p s, singleObjectOracle p s = PageResp.obj 5) ∧ (0 : Nat) < 1 ∧
    (toItemList (PageResp.obj 5) = [5] ∧
     handlePaginatedRequest singleObjectOracle 0 1 = some ([5], [(1, pageSize)])) :=
  ⟨fun _ _ => rfl, by decide,
   pagination_single_object 5 singleObjectOracle 0 1 (fun _ _ => rfl) (by decide)⟩

end Homebridge
